import Mathlib

/-!
Verification of the instance-lifecycle reconciliation logic of the
cluster-api-provider-alibaba machine actuator (pkg/actuators/machine).

The Go source is shallowly embedded: each Go function that a claim touches
becomes a Lean definition of the same name, translated line by line; the
cloud client's describe/stop/run calls are abstracted as function-valued
parameters or as the returned request value (a returned request models "this
request is submitted"); Go errors become `Except String` / `Except
MachineError` values.
-/

namespace AlibabaMachine

/-- A machine tag (machinev1.Tag): a key/value pair of strings. -/
structure Tag where
  Key : String
  Value : String
deriving DecidableEq, Repr

/-- An ECS instance tag entry (ecs.Tag inside instance.Tags.Tag). -/
structure ECSTag where
  TagKey : String
  TagValue : String
deriving DecidableEq, Repr

/-- The fields of ecs.Instance that this package reads. -/
structure Instance where
  InstanceId : String
  Status : String
  StartTime : String
  Tags : List ECSTag
deriving DecidableEq, Repr

/-- ECS instance status constant "Running". -/
def ECSInstanceStatusRunning : String := "Running"

/-- ECS instance status constant "Stopped". -/
def ECSInstanceStatusStopped : String := "Stopped"

/-- ECS tag resource type constant "instance". -/
def ECSTagResourceTypeInstance : String := "instance"

/-- Loop body of removeDuplicatedTags: `m` is the set of keys already seen,
`result` the accumulated output; one step per Go loop iteration. -/
def removeDuplicatedTagsAux (m : List String) (result : List Tag) : List Tag → List Tag
  | [] => result
  | entry :: rest =>
    if m.contains entry.Key then
      removeDuplicatedTagsAux m result rest
    else
      removeDuplicatedTagsAux (entry.Key :: m) (result ++ [entry]) rest

/-- Scan machine tags, and return a deduped tags list.  The first found value
gets precedence (translated from removeDuplicatedTags). -/
def removeDuplicatedTags (tags : List Tag) : List Tag :=
  removeDuplicatedTagsAux [] [] tags

/-- Specification-side deduplication, written from the spec's words: keep the
first occurrence of each key (case-sensitive) and drop every later tag with a
key already kept, preserving the order of the kept first occurrences. -/
def dedupKeepFirst : List Tag → List Tag
  | [] => []
  | t :: ts => t :: dedupKeepFirst (ts.filter (fun s => !(s.Key == t.Key)))
termination_by l => l.length
decreasing_by
  simp only [List.length_cons]
  exact Nat.lt_succ_of_le (List.length_filter_le _ _)

/-- instanceHasSupportedState: an instance is accepted (no error) when its ID
and status are non-empty and, if the allow-list is non-empty, its status is
one of the listed states (translated from instanceHasSupportedState). -/
def instanceHasSupportedState (inst : Instance) (instanceStates : List String) : Except String Unit :=
  if inst.InstanceId == "" then
    .error "instance has nil ID"
  else if inst.Status == "" then
    .error ("instance " ++ inst.InstanceId ++ " has nil state")
  else if instanceStates.length == 0 then
    .ok ()
  else if instanceStates.contains inst.Status then
    .ok ()
  else
    .error ("instance " ++ inst.InstanceId ++ " state is not supported")

/-- Modelled from the spec: the reserved cluster-scope tag key prefix used for
the `<prefix><clusterID> = owned` ownership marker.  The constant is declared
outside the provided sources; only its role (a reserved key prefix) matters
here. -/
def clusterFilterKeyPrefix : String := "kubernetes.io/cluster/"

/-- Modelled from the spec: the value of the cluster-scope ownership marker. -/
def clusterFilterValue : String := "owned"

/-- Modelled from the spec: the reserved name tag key, whose value is the
machine name.  Declared outside the provided sources. -/
def clusterFilterName : String := "Name"

/-- Modelled from the spec: the key of the generic ownership marker.  Declared
outside the provided sources. -/
def clusterOwnedKey : String := "cluster-api-provider-alibaba/owned"

/-- Modelled from the spec: the value of the generic ownership marker. -/
def clusterOwnedValue : String := "true"

/-- Modelled from the spec: the key of the first fixed provenance marker.
Declared outside the provided sources. -/
def machineTagKeyFrom : String := "CreatedFrom"

/-- Modelled from the spec: the shared value of the two fixed provenance
markers. -/
def machineTagValueFrom : String := "machine-api"

/-- Modelled from the spec: the key of the second fixed provenance marker.
Declared outside the provided sources. -/
def machineIsvIntegrationTagKey : String := "ISV-Integration"

/-- The five generated ownership/provenance markers appended by buildTagList
(the list literal of its second append, translated from buildTagList). -/
def generatedTags (machineName clusterID : String) : List Tag :=
  [ Tag.mk ( clusterFilterKeyPrefix ++ clusterID) clusterFilterValue,
    Tag.mk clusterFilterName machineName,
    Tag.mk clusterOwnedKey clusterOwnedValue,
    Tag.mk machineTagKeyFrom machineTagValueFrom,
    Tag.mk machineIsvIntegrationTagKey machineTagValueFrom ]

/-- The filter applied to user-supplied machine tags in buildTagList's loop:
a tag is kept when its key neither carries the reserved cluster prefix nor
equals the reserved name key (strings.HasPrefix is String.startsWith). -/
def filterUserTags (machineTags : List Tag) : List Tag :=
  machineTags.filter (fun tag =>
    (!(tag.Key.startsWith clusterFilterKeyPrefix)) && (!(tag.Key == clusterFilterName)))

/-- buildTagList: compile a list of ecs tags from machine provider spec and
infrastructure object platform spec (translated from buildTagList: filter the
user tags, append the generated markers, deduplicate keep-first). -/
def buildTagList (machineName clusterID : String) (machineTags : List Tag) : List Tag :=
  removeDuplicatedTags (filterUserTags machineTags ++ generatedTags machineName clusterID)

/-! ### Lemmas about tag deduplication -/

lemma removeDuplicatedTagsAux_eq (ts : List Tag) : ∀ m res,
    removeDuplicatedTagsAux m res ts =
      res ++ dedupKeepFirst (ts.filter (fun t => !(m.contains t.Key))) := by
  induction ts with
  | nil => intro m res; simp [removeDuplicatedTagsAux, dedupKeepFirst]
  | cons t ts ih =>
    intro m res
    by_cases h : m.contains t.Key
    · have h2 : t.Key ∈ m := by simpa using h
      rw [removeDuplicatedTagsAux, if_pos h, ih m res, List.filter_cons]
      simp [h2]
    · have h2 : t.Key ∉ m := by simpa using h
      rw [removeDuplicatedTagsAux, if_neg h, ih (t.Key :: m) (res ++ [t]), List.filter_cons]
      have hkeep : (!(m.contains t.Key)) = true := by simp [h2]
      have hf : List.filter (fun s => !((t.Key :: m).contains s.Key)) ts
          = List.filter (fun a => (!(a.Key == t.Key)) && (!(m.contains a.Key))) ts :=
        List.filter_congr (by
          intro s _
          simp only [List.contains_cons, Bool.not_or, beq_eq_decide])
      rw [if_pos hkeep, dedupKeepFirst, List.filter_filter, hf, List.append_assoc,
        List.singleton_append]

lemma removeDuplicatedTagsAux_sublist (ts : List Tag) : ∀ m res,
    (removeDuplicatedTagsAux m res ts).Sublist (res ++ ts) := by
  induction ts with
  | nil => intro m res; simp [removeDuplicatedTagsAux]
  | cons t ts ih =>
    intro m res
    by_cases h : m.contains t.Key
    · rw [removeDuplicatedTagsAux, if_pos h]
      exact (ih m res).trans (List.Sublist.append_left (List.sublist_cons_self t ts) res)
    · rw [removeDuplicatedTagsAux, if_neg h]
      have h2 := ih (t.Key :: m) (res ++ [t])
      rwa [List.append_assoc, List.singleton_append] at h2

lemma mem_of_mem_removeDuplicatedTags {t : Tag} {tags : List Tag}
    (h : t ∈ removeDuplicatedTags tags) : t ∈ tags := by
  have hs := removeDuplicatedTagsAux_sublist tags [] []
  simp only [List.nil_append] at hs
  exact hs.mem h

/-- C6: removeDuplicatedTags keeps exactly the first occurrence of each key
(case-sensitively) and preserves the relative order of those first
occurrences: it equals the specification-side keep-first deduplication, and
its output is a sublist of its input. -/
theorem removeDuplicatedTags_keeps_first_occurrences (tags : List Tag) :
    removeDuplicatedTags tags = dedupKeepFirst tags ∧
      (removeDuplicatedTags tags).Sublist tags := by
  constructor
  · rw [removeDuplicatedTags, removeDuplicatedTagsAux_eq]
    simp
  · have hs := removeDuplicatedTagsAux_sublist tags [] []
    simpa using hs

/-- C10: instanceHasSupportedState accepts an instance exactly when its ID is
non-empty, its status is non-empty, and either the allow-list of states is
empty or the status is one of the listed states. -/
theorem instanceHasSupportedState_ok_iff (inst : Instance) (instanceStates : List String) :
    instanceHasSupportedState inst instanceStates = .ok () ↔
      (inst.InstanceId ≠ "" ∧ inst.Status ≠ "" ∧
        (instanceStates = [] ∨ inst.Status ∈ instanceStates)) := by
  by_cases h1 : inst.InstanceId = ""
  · simp [instanceHasSupportedState, h1]
  · by_cases h2 : inst.Status = ""
    · simp [instanceHasSupportedState, h1, h2]
    · by_cases h3 : instanceStates = []
      · simp [instanceHasSupportedState, h1, h2, h3]
      · by_cases h4 : inst.Status ∈ instanceStates
        · simp [instanceHasSupportedState, h1, h2, h3, h4, List.length_eq_zero]
        · simp [instanceHasSupportedState, h1, h2, h3, h4, List.length_eq_zero]

/-- C7: any user-supplied tag whose key carries the reserved cluster prefix or
equals the reserved name key is dropped by buildTagList's user-tag filter,
regardless of its value, before the generated markers are appended; hence such
a tag can appear in buildTagList's output only as one of the generated
markers. -/
theorem buildTagList_strips_reserved_keys (machineName clusterID : String)
    (machineTags : List Tag) (t : Tag)
    (hres : t.Key.startsWith clusterFilterKeyPrefix = true ∨ t.Key = clusterFilterName) :
    t ∉ filterUserTags machineTags ∧
      (t ∈ buildTagList machineName clusterID machineTags →
        t ∈ generatedTags machineName clusterID) := by
  have hnot : t ∉ filterUserTags machineTags := by
    intro hmem
    rw [filterUserTags, List.mem_filter] at hmem
    rcases hmem with ⟨-, hp⟩
    cases hres with
    | inl h => simp [h] at hp
    | inr h => simp [h] at hp
  refine ⟨hnot, fun hb => ?_⟩
  have hmem : t ∈ filterUserTags machineTags ++ generatedTags machineName clusterID :=
    mem_of_mem_removeDuplicatedTags hb
  rcases List.mem_append.mp hmem with h | h
  · exact absurd h hnot
  · exact h

/-- Witness for C7 at a concrete input: the reserved name key tag
(Name, "m1") survives into buildTagList's output only because it coincides
with the generated name marker for machine "m1". -/
theorem buildTagList_strips_reserved_keys_witness :
    Tag.mk clusterFilterName "m1" ∈ generatedTags "m1" "cid" :=
  (buildTagList_strips_reserved_keys "m1" "cid" [Tag.mk clusterFilterName "other"]
    (Tag.mk clusterFilterName "m1") (Or.inr rfl)).2 (by decide)

/-! ### Instance ordering (instanceList.Less and sortInstances) -/

/-- The fixed time layout used by instanceList.Less. -/
def formatISO8601 : String := "2006-01-02T15:04:05Z"

/-- Numeric value of a decimal digit character. -/
def digitToNat (c : Char) : Nat := c.toNat - 48

/-- Gregorian leap-year rule, as validated by Go's time parser. -/
def isLeapYear (y : Nat) : Bool := (y % 4 == 0 && y % 100 != 0) || (y % 400 == 0)

/-- Number of days in a month, as validated by Go's time parser. -/
def daysInMonth (month year : Nat) : Nat :=
  if month == 2 then (if isLeapYear year then 29 else 28)
  else if month == 4 || month == 6 || month == 9 || month == 11 then 30
  else 31

/-- Models Go's time.ParseInLocation for the fixed layout formatISO8601: the
string must be exactly `YYYY-MM-DDTHH:MM:SSZ` with in-range components, and
the result is a single Nat strictly monotone in chronological order (all
strings are parsed in the same location, so only relative order matters;
time.Time.After on two parsed values is `>` on the keys).  `none` models a
parse error. -/
def parseTimeISO8601 (s : String) : Option Nat :=
  match s.toList with
  | [y1, y2, y3, y4, c1, mo1, mo2, c2, d1, d2, c3, h1, h2, c4, mi1, mi2, c5, s1, s2, c6] =>
    if c1 = '-' ∧ c2 = '-' ∧ c3 = 'T' ∧ c4 = ':' ∧ c5 = ':' ∧ c6 = 'Z' ∧
        y1.isDigit ∧ y2.isDigit ∧ y3.isDigit ∧ y4.isDigit ∧ mo1.isDigit ∧ mo2.isDigit ∧
        d1.isDigit ∧ d2.isDigit ∧ h1.isDigit ∧ h2.isDigit ∧ mi1.isDigit ∧ mi2.isDigit ∧
        s1.isDigit ∧ s2.isDigit then
      let year := ((digitToNat y1 * 10 + digitToNat y2) * 10 + digitToNat y3) * 10 + digitToNat y4
      let month := digitToNat mo1 * 10 + digitToNat mo2
      let day := digitToNat d1 * 10 + digitToNat d2
      let hour := digitToNat h1 * 10 + digitToNat h2
      let minute := digitToNat mi1 * 10 + digitToNat mi2
      let second := digitToNat s1 * 10 + digitToNat s2
      if 1 ≤ month ∧ month ≤ 12 ∧ 1 ≤ day ∧ day ≤ daysInMonth month year ∧
          hour ≤ 23 ∧ minute ≤ 59 ∧ second ≤ 59 then
        some (((((year * 13 + month) * 32 + day) * 24 + hour) * 60 + minute) * 60 + second)
      else none
    else none
  | _ => none

/-- instanceList.Less, translated branch by branch: with both start times
empty i is not less than j; a dated i is not less than an undated j; an
undated i is less than a dated j; otherwise parse both (a parse failure makes
the pair incomparable) and i is less than j when i's time is after j's. -/
def instanceLess (i j : Instance) : Bool :=
  if i.StartTime == "" && j.StartTime == "" then false
  else if i.StartTime != "" && j.StartTime == "" then false
  else if i.StartTime == "" && j.StartTime != "" then true
  else
    match parseTimeISO8601 i.StartTime with
    | none => false
    | some iStartTime =>
      match parseTimeISO8601 j.StartTime with
      | none => false
      | some jStartTime => decide (jStartTime < iStartTime)

/-- One insertion step of an insertion sort driven by instanceLess: x is
placed before the first element it is Less than. -/
def insertInstance (x : Instance) : List Instance → List Instance
  | [] => [x]
  | y :: ys => if instanceLess x y then x :: y :: ys else y :: insertInstance x ys

/-- sortInstances sorts a list of instances with instanceList.Less.  The Go
code calls the standard library's comparison sort (sort.Sort); on inputs
where Less is a strict total order every correct comparison sort returns the
unique Less-sorted permutation, which this insertion sort computes. -/
def sortInstances (instances : List Instance) : List Instance :=
  instances.foldr insertInstance []

/-- A running instance with the older launch time T1. -/
def instanceOlder : Instance := Instance.mk "i-older" "Running" "2021-01-01T00:00:00Z" []

/-- A running instance with the newer launch time T2. -/
def instanceNewer : Instance := Instance.mk "i-newer" "Running" "2021-06-01T00:00:00Z" []

/-- A running instance with no start time. -/
def instanceUndated : Instance := Instance.mk "i-undated" "Running" "" []

/-- C1 counterexample: with start times T1 < T2 and one undated instance, the
claimed order is [T2, T1, no-time], but sortInstances yields
[no-time, T2, T1] — instanceList.Less makes an undated instance Less than
every dated one, so undated instances sort first (as newest), not last. -/
theorem sortInstances_counterexample :
    sortInstances [instanceNewer, instanceOlder, instanceUndated]
        = [instanceUndated, instanceNewer, instanceOlder] ∧
      sortInstances [instanceNewer, instanceOlder, instanceUndated]
        ≠ [instanceNewer, instanceOlder, instanceUndated] := by
  constructor
  · decide
  · decide

/-- C1 (amended): sortInstances orders dated instances descending by launch
timestamp (newest first), and an instance with no start timestamp sorts as
newest (first, not last): given start times T1 < T2 and one instance with no
start time, the resulting order is [no-time, T2, T1]. -/
theorem sortInstances_newest_first_undated_first
    (older newer undated : Instance) (kOlder kNewer : Nat)
    (hpo : parseTimeISO8601 older.StartTime = some kOlder)
    (hpn : parseTimeISO8601 newer.StartTime = some kNewer)
    (hlt : kOlder < kNewer)
    (ho : older.StartTime ≠ "") (hn : newer.StartTime ≠ "")
    (hu : undated.StartTime = "") :
    sortInstances [newer, older, undated] = [undated, newer, older] := by
  have hno : ¬(kNewer < kOlder) := Nat.lt_asymm hlt
  simp [sortInstances, insertInstance, instanceLess, hpo, hpn, ho, hn, hu, hlt, hno]

/-- Witness for C1 (amended) at concrete instances. -/
theorem sortInstances_newest_first_undated_first_witness :
    sortInstances [instanceNewer, instanceOlder, instanceUndated]
      = [instanceUndated, instanceNewer, instanceOlder] :=
  sortInstances_newest_first_undated_first instanceOlder instanceNewer instanceUndated
    72642441600 72656265600 (by decide) (by decide) (by decide) (by decide) (by decide) rfl

/-! ### runInstances request assembly (claims about bandwidth/disk fields and
tenancy validation) -/

/-- machinev1.DefaultTenancy, one of the two recognized tenancy values. -/
def DefaultTenancy : String := "default"

/-- machinev1.HostTenancy, the other recognized tenancy value. -/
def HostTenancy : String := "host"

/-- machinev1 AlibabaDiskEncryptionEnabled enumeration value (only its
identity matters for the equality tests below). -/
def AlibabaDiskEncryptionEnabled : String := "encrypted"

/-- machinev1 DeleteWithInstance disk-preservation enumeration value. -/
def DeleteWithInstancePolicy : String := "DeleteWithInstance"

/-- machinev1.SystemDiskProperties: the configured system disk. -/
structure SystemDiskProperties where
  Category : String
  Size : Int
  Name : String
  PerformanceLevel : String
deriving DecidableEq, Repr

/-- machinev1.DataDiskProperties: one configured data disk. -/
structure DataDiskProperties where
  Size : Int
  Category : String
  DiskEncryption : String
  Name : String
  SnapshotID : String
  PerformanceLevel : String
  KMSKeyID : String
  DiskPreservation : String
deriving DecidableEq, Repr

/-- machinev1.BandwidthProperties: configured internet bandwidth limits. -/
structure BandwidthProperties where
  InternetMaxBandwidthOut : Int
  InternetMaxBandwidthIn : Int
deriving DecidableEq, Repr

/-- The fields of machinev1.AlibabaCloudMachineProviderConfig that
runInstances' request assembly reads. -/
structure AlibabaCloudMachineProviderConfig where
  RegionID : String
  ResourceGroupID : String
  InstanceType : String
  RAMRoleName : String
  Bandwidth : BandwidthProperties
  SystemDisk : SystemDiskProperties
  DataDisks : List DataDiskProperties
  Tags : List Tag
  Tenancy : String
deriving DecidableEq, Repr

/-- ecs.RunInstancesDataDisk: one data-disk entry of the create request.
Optional string fields are `none` when the Go code leaves them unset. -/
structure RunInstancesDataDisk where
  Size : String
  Category : String
  Encrypted : String
  DiskName : Option String
  SnapshotId : Option String
  PerformanceLevel : Option String
  KMSKeyId : Option String
  DeleteWithInstance : Option String
deriving DecidableEq, Repr

/-- The fields of ecs.RunInstancesRequest assigned by runInstances.  A field
is `none`/`Option` exactly when the Go code assigns it only conditionally (an
unassigned SDK field is omitted from the submitted request). -/
structure RunInstancesRequest where
  Scheme : String
  RegionId : String
  ResourceGroupId : Option String
  SecurityGroupIds : List String
  Tag : List Tag
  ImageId : String
  InstanceType : String
  InstanceName : String
  HostName : String
  Amount : Nat
  MinAmount : Nat
  RamRoleName : Option String
  InternetMaxBandwidthOut : Option Int
  InternetMaxBandwidthIn : Option Int
  VSwitchId : String
  SystemDiskCategory : String
  SystemDiskSize : Option String
  SystemDiskDiskName : Option String
  SystemDiskPerformanceLevel : Option String
  DataDisk : Option (List RunInstancesDataDisk)
  UserData : Option String
  Tenancy : String
deriving DecidableEq, Repr

/-- The two machine-api error classifications this file invokes:
mapierrors.InvalidMachineConfiguration (the permanent, needs-spec-fix
configuration-error kind) and mapierrors.CreateMachine (the kind used for
create/provider failures). -/
inductive MachineError where
  | invalidMachineConfiguration (msg : String)
  | createMachine (msg : String)
deriving DecidableEq, Repr

/-- covertToRunInstancesTag: copy each machine tag into a request tag. -/
def covertToRunInstancesTag (tags : List Tag) : List Tag :=
  tags.map (fun tag => Tag.mk tag.Key tag.Value)

/-- The data-disk conversion loop of runInstances, one entry per configured
data disk. -/
def toRunInstancesDataDisk (dataDisk : DataDiskProperties) : RunInstancesDataDisk :=
  RunInstancesDataDisk.mk
    (toString dataDisk.Size)
    dataDisk.Category
    (if dataDisk.DiskEncryption == AlibabaDiskEncryptionEnabled then "true" else "false")
    (if dataDisk.Name != "" then some dataDisk.Name else none)
    (if dataDisk.SnapshotID != "" then some dataDisk.SnapshotID else none)
    (if dataDisk.PerformanceLevel != "" then some dataDisk.PerformanceLevel else none)
    (if dataDisk.KMSKeyID != "" then some dataDisk.KMSKeyID else none)
    (if dataDisk.DiskPreservation == DeleteWithInstancePolicy then some "true" else none)

/-- runInstances, request-assembly slice: models the Go function from the
request construction through the tenancy switch, taking the already-resolved
image ID, security group IDs, vSwitch ID and cluster ID as inputs (their
resolution and the surrounding client calls are outside this slice).  An
`.ok` result is the request handed to client.RunInstances; an `.error` result
is returned before any create-instance request is submitted. -/
def runInstances (machineName : String) (clusterID : String)
    (machineProviderConfig : AlibabaCloudMachineProviderConfig) (userData : String)
    (imageID : String) (securityGroupIDs : List String) (vSwitchID : String) :
    Except MachineError RunInstancesRequest :=
  let tagList := buildTagList machineName clusterID machineProviderConfig.Tags
  let instanceTenancy := machineProviderConfig.Tenancy
  if instanceTenancy = "" ∨ instanceTenancy = DefaultTenancy ∨ instanceTenancy = HostTenancy then
    .ok (RunInstancesRequest.mk
      "https"                                         -- Scheme
      machineProviderConfig.RegionID                  -- RegionId
      (if machineProviderConfig.ResourceGroupID ≠ "" -- ResourceGroupId
        then some machineProviderConfig.ResourceGroupID else none)
      securityGroupIDs                                -- SecurityGroupIds
      (covertToRunInstancesTag tagList)               -- Tag
      imageID                                         -- ImageId
      machineProviderConfig.InstanceType              -- InstanceType
      machineName                                     -- InstanceName
      machineName                                     -- HostName
      1                                               -- Amount
      1                                               -- MinAmount
      (if machineProviderConfig.RAMRoleName ≠ ""      -- RamRoleName
        then some machineProviderConfig.RAMRoleName else none)
      (if machineProviderConfig.Bandwidth.InternetMaxBandwidthOut > 0
        then some machineProviderConfig.Bandwidth.InternetMaxBandwidthOut else none)
      (if machineProviderConfig.Bandwidth.InternetMaxBandwidthIn ≠ 0
        then some machineProviderConfig.Bandwidth.InternetMaxBandwidthIn else none)
      vSwitchID                                       -- VSwitchId
      machineProviderConfig.SystemDisk.Category       -- SystemDiskCategory
      (some (toString machineProviderConfig.SystemDisk.Size)) -- SystemDiskSize (unconditional)
      (if machineProviderConfig.SystemDisk.Name ≠ ""
        then some machineProviderConfig.SystemDisk.Name else none)
      (if machineProviderConfig.SystemDisk.PerformanceLevel ≠ ""
        then some machineProviderConfig.SystemDisk.PerformanceLevel else none)
      (if machineProviderConfig.DataDisks.length > 0  -- DataDisk
        then some (machineProviderConfig.DataDisks.map toRunInstancesDataDisk) else none)
      (if userData ≠ "" then some userData else none)  -- UserData
      (if instanceTenancy = "" then DefaultTenancy else instanceTenancy)) -- Tenancy switch
  else
    .error (MachineError.createMachine
      ("invalid instance tenancy: " ++ instanceTenancy ++
        ". Allowed options are: " ++ DefaultTenancy ++ "," ++ HostTenancy))

/-- The InternetMaxBandwidthOut field of a submitted request (`none` when the
call failed or the field was left unset). -/
def reqBandwidthOut : Except MachineError RunInstancesRequest → Option Int
  | .ok r => r.InternetMaxBandwidthOut
  | .error _ => none

/-- The InternetMaxBandwidthIn field of a submitted request. -/
def reqBandwidthIn : Except MachineError RunInstancesRequest → Option Int
  | .ok r => r.InternetMaxBandwidthIn
  | .error _ => none

/-- The SystemDiskSize field of a submitted request. -/
def reqSystemDiskSize : Except MachineError RunInstancesRequest → Option String
  | .ok r => r.SystemDiskSize
  | .error _ => none

/-- The Tenancy field of a submitted request (`none` when the call failed). -/
def reqTenancy : Except MachineError RunInstancesRequest → Option String
  | .ok r => some r.Tenancy
  | .error _ => none

/-- True when a request was submitted (no pre-submission failure). -/
def isOkRequest : Except MachineError RunInstancesRequest → Bool
  | .ok _ => true
  | .error _ => false

/-- True when the result is a mapierrors.CreateMachine classification. -/
def isCreateMachineError : Except MachineError RunInstancesRequest → Bool
  | .error (.createMachine _) => true
  | _ => false

/-- True when the result is a mapierrors.InvalidMachineConfiguration
classification. -/
def isInvalidMachineConfigError : Except MachineError RunInstancesRequest → Bool
  | .error (.invalidMachineConfiguration _) => true
  | _ => false

/-- A provider config whose system disk size is zero/unset (tenancy unset,
bandwidth unset). -/
def configDiskSizeZero : AlibabaCloudMachineProviderConfig :=
  AlibabaCloudMachineProviderConfig.mk "cn-hangzhou" "" "ecs.g6.large" ""
    (BandwidthProperties.mk 0 0) (SystemDiskProperties.mk "cloud_essd" 0 "" "") [] [] ""

/-- C2 counterexample: with a configured system disk size of zero, the
create-instance request carries the explicit string "0" in SystemDiskSize
instead of omitting the field — the Go code assigns
strconv.FormatInt(SystemDisk.Size, 10) unconditionally. -/
theorem runInstances_zero_disk_size_counterexample :
    reqSystemDiskSize (runInstances "m1" "cid" configDiskSizeZero "" "img-1" ["sg-1"] "vsw-1")
        = some "0" ∧
      (some "0" : Option String) ≠ none := by
  exact ⟨by decide, by decide⟩

/-- C2 (amended): in a submitted create-instance request, the internet max
bandwidth out field is omitted exactly when its configured value is not
positive, the internet max bandwidth in field is omitted exactly when its
configured value is zero, but the system disk size is always sent, as the
decimal string of the configured value — including an explicit "0" when the
value is zero/unset. -/
theorem runInstances_numeric_field_omission (machineName clusterID : String)
    (machineProviderConfig : AlibabaCloudMachineProviderConfig)
    (userData imageID vSwitchID : String) (securityGroupIDs : List String)
    (h : isOkRequest (runInstances machineName clusterID machineProviderConfig userData
        imageID securityGroupIDs vSwitchID) = true) :
    reqBandwidthOut (runInstances machineName clusterID machineProviderConfig userData
        imageID securityGroupIDs vSwitchID)
        = (if machineProviderConfig.Bandwidth.InternetMaxBandwidthOut > 0
            then some machineProviderConfig.Bandwidth.InternetMaxBandwidthOut else none) ∧
      reqBandwidthIn (runInstances machineName clusterID machineProviderConfig userData
        imageID securityGroupIDs vSwitchID)
        = (if machineProviderConfig.Bandwidth.InternetMaxBandwidthIn ≠ 0
            then some machineProviderConfig.Bandwidth.InternetMaxBandwidthIn else none) ∧
      reqSystemDiskSize (runInstances machineName clusterID machineProviderConfig userData
        imageID securityGroupIDs vSwitchID)
        = some (toString machineProviderConfig.SystemDisk.Size) := by
  by_cases ht : (machineProviderConfig.Tenancy = "" ∨
      machineProviderConfig.Tenancy = DefaultTenancy ∨
      machineProviderConfig.Tenancy = HostTenancy)
  · simp [runInstances, ht, reqBandwidthOut, reqBandwidthIn, reqSystemDiskSize, bne_iff_ne]
  · exfalso
    rw [runInstances] at h
    simp only [if_neg ht] at h
    simp [isOkRequest] at h

/-- Witness for C2 (amended) at a concrete config (bandwidth out 5, bandwidth
in 0, system disk size 42, tenancy unset). -/
theorem runInstances_numeric_field_omission_witness :
    reqBandwidthOut (runInstances "m1" "cid"
        (AlibabaCloudMachineProviderConfig.mk "cn-hangzhou" "" "ecs.g6.large" ""
          (BandwidthProperties.mk 5 0) (SystemDiskProperties.mk "cloud_essd" 42 "" "") [] [] "")
        "" "img-1" ["sg-1"] "vsw-1") = some 5 ∧
      reqBandwidthIn (runInstances "m1" "cid"
        (AlibabaCloudMachineProviderConfig.mk "cn-hangzhou" "" "ecs.g6.large" ""
          (BandwidthProperties.mk 5 0) (SystemDiskProperties.mk "cloud_essd" 42 "" "") [] [] "")
        "" "img-1" ["sg-1"] "vsw-1") = none ∧
      reqSystemDiskSize (runInstances "m1" "cid"
        (AlibabaCloudMachineProviderConfig.mk "cn-hangzhou" "" "ecs.g6.large" ""
          (BandwidthProperties.mk 5 0) (SystemDiskProperties.mk "cloud_essd" 42 "" "") [] [] "")
        "" "img-1" ["sg-1"] "vsw-1") = some "42" := by
  have h := runInstances_numeric_field_omission "m1" "cid"
    (AlibabaCloudMachineProviderConfig.mk "cn-hangzhou" "" "ecs.g6.large" ""
      (BandwidthProperties.mk 5 0) (SystemDiskProperties.mk "cloud_essd" 42 "" "") [] [] "")
    "" "img-1" "vsw-1" ["sg-1"] (by decide)
  simpa using h

/-- A provider config with the unrecognized tenancy value "dedicated". -/
def configBadTenancy : AlibabaCloudMachineProviderConfig :=
  AlibabaCloudMachineProviderConfig.mk "cn-hangzhou" "" "ecs.g6.large" ""
    (BandwidthProperties.mk 0 0) (SystemDiskProperties.mk "cloud_essd" 120 "" "") [] []
    "dedicated"

/-- C3 counterexample: an unrecognized tenancy value fails the call before
submission, but the failure is classified with mapierrors.CreateMachine — the
kind the spec associates with transient provider errors — and not with
mapierrors.InvalidMachineConfiguration, the configuration-error kind the
claim asserts. -/
theorem runInstances_invalid_tenancy_counterexample :
    isCreateMachineError (runInstances "m1" "cid" configBadTenancy "" "img-1" ["sg-1"] "vsw-1")
        = true ∧
      isInvalidMachineConfigError (runInstances "m1" "cid" configBadTenancy "" "img-1" ["sg-1"]
        "vsw-1") = false := by
  exact ⟨by decide, by decide⟩

/-- C3 (amended): an empty tenancy value is replaced by the "default"
tenancy; the two recognized values pass through unchanged; any other tenancy
value causes the call to fail before the create-instance request is
submitted, classified with the create-machine error kind (the classification
used for provider-side create failures), not as an invalid-configuration
error. -/
theorem runInstances_tenancy_validation (machineName clusterID : String)
    (machineProviderConfig : AlibabaCloudMachineProviderConfig)
    (userData imageID vSwitchID : String) (securityGroupIDs : List String) :
    (machineProviderConfig.Tenancy = "" →
      reqTenancy (runInstances machineName clusterID machineProviderConfig userData imageID
        securityGroupIDs vSwitchID) = some DefaultTenancy) ∧
      ((machineProviderConfig.Tenancy = DefaultTenancy ∨
          machineProviderConfig.Tenancy = HostTenancy) →
        reqTenancy (runInstances machineName clusterID machineProviderConfig userData imageID
          securityGroupIDs vSwitchID) = some machineProviderConfig.Tenancy) ∧
      (machineProviderConfig.Tenancy ≠ "" → machineProviderConfig.Tenancy ≠ DefaultTenancy →
        machineProviderConfig.Tenancy ≠ HostTenancy →
        isOkRequest (runInstances machineName clusterID machineProviderConfig userData imageID
            securityGroupIDs vSwitchID) = false ∧
          isCreateMachineError (runInstances machineName clusterID machineProviderConfig
            userData imageID securityGroupIDs vSwitchID) = true ∧
          isInvalidMachineConfigError (runInstances machineName clusterID machineProviderConfig
            userData imageID securityGroupIDs vSwitchID) = false) := by
  refine ⟨fun h0 => ?_, fun hrec => ?_, fun h1 h2 h3 => ?_⟩
  · simp [runInstances, reqTenancy, h0]
  · rcases hrec with h | h
    · simp [runInstances, reqTenancy, h, DefaultTenancy, HostTenancy]
    · simp [runInstances, reqTenancy, h, DefaultTenancy, HostTenancy]
  · have hcond : ¬(machineProviderConfig.Tenancy = "" ∨
        machineProviderConfig.Tenancy = DefaultTenancy ∨
        machineProviderConfig.Tenancy = HostTenancy) := by
      simp [h1, h2, h3]
    simp [runInstances, hcond, isOkRequest, isCreateMachineError, isInvalidMachineConfigError]

/-- Witness for C3 (amended): the empty tenancy defaults, "host" passes
through, and the unrecognized value "dedicated" is rejected with the
create-machine classification. -/
theorem runInstances_tenancy_validation_witness :
    reqTenancy (runInstances "m1" "cid" configDiskSizeZero "" "img-1" ["sg-1"] "vsw-1")
        = some DefaultTenancy ∧
      isCreateMachineError (runInstances "m1" "cid" configBadTenancy "" "img-1" ["sg-1"]
        "vsw-1") = true := by
  constructor
  · exact (runInstances_tenancy_validation "m1" "cid" configDiskSizeZero "" "img-1" "vsw-1"
      ["sg-1"]).1 rfl
  · exact ((runInstances_tenancy_validation "m1" "cid" configBadTenancy "" "img-1" "vsw-1"
      ["sg-1"]).2.2 (by decide) (by decide) (by decide)).2.1

/-! ### stopInstances (cleanup of redundant instances) -/

/-- describeInstances: errors on an empty ID list, otherwise returns what the
client's DescribeInstances call returns (the client is abstracted as a
function from the ID list to the described instances). -/
def describeInstances (client : List String → Except String (List Instance))
    (instanceIds : List String) : Except String (List Instance) :=
  if instanceIds.length < 1 then .error "instance-ids not specified"
  else client instanceIds

/-- The fields of ecs.StopInstancesRequest assigned by stopInstances. -/
structure StopInstancesRequest where
  Scheme : String
  RegionId : String
  InstanceId : List String
deriving DecidableEq, Repr

/-- stopInstances: stop all provided instances with a single ECS request
(translated from stopInstances: collect the candidate IDs, re-describe them,
error when nothing is returned, filter to currently Running instances, and
issue one batched stop request for the filtered IDs).  An `.ok` result is the
single request handed to client.StopInstances. -/
def stopInstances (client : List String → Except String (List Instance))
    (regionID : String) (instances : List Instance) : Except String StopInstancesRequest :=
  let instanceIDs := instances.map (fun i => i.InstanceId)
  match describeInstances client instanceIDs with
  | .error e => .error e
  | .ok existingInstances =>
    if existingInstances.length < 1 then
      .error "instances not exist"
    else
      let needStoppedInstanceIDs :=
        (existingInstances.filter (fun i => i.Status == ECSInstanceStatusRunning)).map
          (fun i => i.InstanceId)
      .ok (StopInstancesRequest.mk "https" regionID needStoppedInstanceIDs)

/-- A stopped instance used as a concrete cleanup candidate. -/
def instanceStopped1 : Instance := Instance.mk "i-1" "Stopped" "" []

/-- A client whose DescribeInstances always returns the single stopped
instance. -/
def clientStoppedOnly : List String → Except String (List Instance) :=
  fun _ => .ok [instanceStopped1]

/-- C4 counterexample: with a non-empty input whose re-described set is
non-empty but contains no Running instance, stopInstances does NOT return an
existence error — it issues a stop request whose instance-ID list is empty.
The existence check happens after the re-describe but before the Running
filter. -/
theorem stopInstances_empty_filter_counterexample :
    stopInstances clientStoppedOnly "cn-hangzhou" [instanceStopped1]
        = .ok (StopInstancesRequest.mk "https" "cn-hangzhou" []) ∧
      stopInstances clientStoppedOnly "cn-hangzhou" [instanceStopped1]
        ≠ .error "instances not exist" := by
  have hok : stopInstances clientStoppedOnly "cn-hangzhou" [instanceStopped1]
      = Except.ok (StopInstancesRequest.mk "https" "cn-hangzhou" []) := rfl
  refine ⟨hok, ?_⟩
  rw [hok]
  intro h
  exact Except.noConfusion h

/-- C4 (amended): for a non-empty input instance list, stopInstances returns
the existence error exactly when the re-describe of the candidate IDs comes
back empty; when the re-described set is non-empty but none of its instances
is Running, a stop request with an empty instance-ID list is still issued. -/
theorem stopInstances_existence_error (client : List String → Except String (List Instance))
    (regionID : String) (instances : List Instance) (hne : instances ≠ []) :
    (client (instances.map (fun i => i.InstanceId)) = .ok [] →
        stopInstances client regionID instances = .error "instances not exist") ∧
      (∀ described, described ≠ [] →
        client (instances.map (fun i => i.InstanceId)) = .ok described →
        described.filter (fun i => i.Status == ECSInstanceStatusRunning) = [] →
        stopInstances client regionID instances
          = .ok (StopInstancesRequest.mk "https" regionID [])) := by
  constructor
  · intro hdesc
    simp [stopInstances, describeInstances, hne, hdesc]
  · intro described hdne hdesc hfilter
    simp [stopInstances, describeInstances, hne, hdesc, hdne, hfilter]

/-- A client returning no instances for any describe call. -/
def clientNothing : List String → Except String (List Instance) :=
  fun _ => .ok []

/-- Witness for C4 (amended) at concrete inputs: an empty re-describe yields
the existence error; a re-describe returning only a stopped instance yields a
stop request with an empty ID list. -/
theorem stopInstances_existence_error_witness :
    stopInstances clientNothing "cn-hangzhou" [instanceStopped1]
        = .error "instances not exist" ∧
      stopInstances clientStoppedOnly "cn-hangzhou" [instanceStopped1]
        = .ok (StopInstancesRequest.mk "https" "cn-hangzhou" []) := by
  constructor
  · exact (stopInstances_existence_error clientNothing "cn-hangzhou" [instanceStopped1]
      (by decide)).1 rfl
  · exact (stopInstances_existence_error clientStoppedOnly "cn-hangzhou" [instanceStopped1]
      (by decide)).2 [instanceStopped1] (by decide) rfl (by decide)

/-- C5: for every non-empty input list whose re-describe returns a non-empty
set, stopInstances issues exactly one batched stop request whose instance-ID
list is exactly the IDs of the re-described instances whose status is
Running, in order. -/
theorem stopInstances_stops_exactly_running
    (client : List String → Except String (List Instance)) (regionID : String)
    (instances described : List Instance) (hne : instances ≠ [])
    (hdesc : client (instances.map (fun i => i.InstanceId)) = .ok described)
    (hdne : described ≠ []) :
    stopInstances client regionID instances
      = .ok (StopInstancesRequest.mk "https" regionID
          ((described.filter (fun i => i.Status == ECSInstanceStatusRunning)).map
            (fun i => i.InstanceId))) := by
  simp [stopInstances, describeInstances, hne, hdesc, hdne]

/-- Three re-described instances with statuses [Running, Stopped, Running]. -/
def describedRunningStoppedRunning : List Instance :=
  [ Instance.mk "i-1" "Running" "" [],
    Instance.mk "i-2" "Stopped" "" [],
    Instance.mk "i-3" "Running" "" [] ]

/-- A client whose DescribeInstances returns the [Running, Stopped, Running]
triple. -/
def clientRunningStoppedRunning : List String → Except String (List Instance) :=
  fun _ => .ok describedRunningStoppedRunning

/-- Witness for C5 at the claim's concrete scenario: statuses
[Running, Stopped, Running] produce one stop request containing exactly the
two Running instance IDs. -/
theorem stopInstances_stops_exactly_running_witness :
    stopInstances clientRunningStoppedRunning "cn-hangzhou" describedRunningStoppedRunning
      = .ok (StopInstancesRequest.mk "https" "cn-hangzhou" ["i-1", "i-3"]) := by
  have h := stopInstances_stops_exactly_running clientRunningStoppedRunning "cn-hangzhou"
    describedRunningStoppedRunning describedRunningStoppedRunning (by decide) rfl (by decide)
  simpa using h

/-! ### Security group resolution (getSecurityGroupIDs) -/

/-- machinev1 security-group reference: a literal ID or a tag filter (`none`
models a nil tag slice). -/
structure AlibabaResourceReference where
  ID : String
  Tags : Option (List Tag)
deriving DecidableEq, Repr

/-- The loop of getSecurityGroupIDs: each entry contributes its literal ID
when set, else the IDs matching its tag filter (getSecurityGroupIDByTags is
abstracted as the function `resolveByTags`, whose error aborts the loop);
an entry with no ID and a nil tag slice contributes nothing. -/
def collectSecurityGroupIDs (resolveByTags : List Tag → Except String (List String)) :
    List AlibabaResourceReference → Except String (List String)
  | [] => .ok []
  | sg :: rest =>
    if sg.ID ≠ "" then
      match collectSecurityGroupIDs resolveByTags rest with
      | .error e => .error e
      | .ok restIds => .ok (sg.ID :: restIds)
    else
      match sg.Tags with
      | some tags =>
        match resolveByTags tags with
        | .error e => .error e
        | .ok ids =>
          match collectSecurityGroupIDs resolveByTags rest with
          | .error e => .error e
          | .ok restIds => .ok (ids ++ restIds)
      | none => collectSecurityGroupIDs resolveByTags rest

/-- getSecurityGroupIDs: errors when no security-group configuration is
provided, resolves each configured entry in order, and errors when the final
concatenated ID list is empty (translated from getSecurityGroupIDs). -/
def getSecurityGroupIDs (resolveByTags : List Tag → Except String (List String))
    (securityGroups : List AlibabaResourceReference) : Except String (List String) :=
  if securityGroups.length = 0 then
    .error "no security configuration provided"
  else
    match collectSecurityGroupIDs resolveByTags securityGroups with
    | .error e => .error e
    | .ok securityGroupIDs =>
      if securityGroupIDs.length = 0 then
        .error "no securitygroup IDs found from configuration"
      else
        .ok securityGroupIDs

/-- C8: security-group resolution: (a) with no configuration at all it fails;
(b) entries resolve independently and concatenate in configuration order;
(c) an empty final list fails; (d) a config of one literal ID followed by one
tag filter matching two IDs yields the 3-element list
(literal, tag-match-1, tag-match-2). -/
theorem getSecurityGroupIDs_resolution :
    (∀ resolveByTags, getSecurityGroupIDs resolveByTags []
        = .error "no security configuration provided") ∧
      (∀ resolveByTags sgs1 sgs2 ids1 ids2,
        collectSecurityGroupIDs resolveByTags sgs1 = .ok ids1 →
        collectSecurityGroupIDs resolveByTags sgs2 = .ok ids2 →
        collectSecurityGroupIDs resolveByTags (sgs1 ++ sgs2) = .ok (ids1 ++ ids2)) ∧
      (∀ resolveByTags sgs, sgs ≠ [] →
        collectSecurityGroupIDs resolveByTags sgs = .ok [] →
        getSecurityGroupIDs resolveByTags sgs
          = .error "no securitygroup IDs found from configuration") ∧
      (∀ resolveByTags (filterTags : List Tag) (litID idA idB : String), litID ≠ "" →
        resolveByTags filterTags = .ok [idA, idB] →
        getSecurityGroupIDs resolveByTags
            [AlibabaResourceReference.mk litID none,
             AlibabaResourceReference.mk "" (some filterTags)]
          = .ok [litID, idA, idB]) := by
  refine ⟨fun resolveByTags => rfl, ?_, ?_, ?_⟩
  · intro resolveByTags sgs1 sgs2 ids1 ids2 h1 h2
    induction sgs1 generalizing ids1 with
    | nil =>
      simp [collectSecurityGroupIDs] at h1
      simpa [h1] using h2
    | cons sg rest ih =>
      by_cases hid : sg.ID ≠ ""
      · rw [collectSecurityGroupIDs, if_pos hid] at h1
        rw [List.cons_append, collectSecurityGroupIDs, if_pos hid]
        rcases hrest : collectSecurityGroupIDs resolveByTags rest with e | restIds
        · rw [hrest] at h1; exact Except.noConfusion h1
        · rw [hrest] at h1
          cases h1
          rw [ih restIds hrest]
          rfl
      · rw [collectSecurityGroupIDs, if_neg hid] at h1
        rw [List.cons_append, collectSecurityGroupIDs, if_neg hid]
        cases htags : sg.Tags with
        | none =>
          rw [htags] at h1
          exact ih ids1 h1
        | some tags =>
          rw [htags] at h1
          dsimp only at h1 ⊢
          rcases hres : resolveByTags tags with e | resIds
          · rw [hres] at h1; exact Except.noConfusion h1
          · rw [hres] at h1
            dsimp only at h1
            rcases hrest : collectSecurityGroupIDs resolveByTags rest with e | restIds
            · rw [hrest] at h1; exact Except.noConfusion h1
            · rw [hrest] at h1
              dsimp only at h1
              cases h1
              dsimp only
              rw [ih restIds hrest]
              dsimp only
              rw [List.append_assoc]
  · intro resolveByTags sgs hne hcollect
    have hlen : ¬(sgs.length = 0) := by
      cases sgs with
      | nil => exact absurd rfl hne
      | cons a l => simp
    simp [getSecurityGroupIDs, hlen, hcollect]
  · intro resolveByTags filterTags litID idA idB hlit hres
    simp [getSecurityGroupIDs, collectSecurityGroupIDs, hlit, hres]

/-- A concrete tag-filter resolver mapping every filter to two IDs. -/
def resolveTwoIDs : List Tag → Except String (List String) :=
  fun _ => .ok ["sg-a", "sg-b"]

/-- Witness for C8 at a concrete configuration: one literal ID and one tag
filter matching two IDs resolve to the 3-element list in configuration
order. -/
theorem getSecurityGroupIDs_resolution_witness :
    getSecurityGroupIDs resolveTwoIDs
        [AlibabaResourceReference.mk "sg-lit" none,
         AlibabaResourceReference.mk "" (some [Tag.mk "sigs.k8s.io" "owned"])]
      = .ok ["sg-lit", "sg-a", "sg-b"] :=
  getSecurityGroupIDs_resolution.2.2.2 resolveTwoIDs [Tag.mk "sigs.k8s.io" "owned"]
    "sg-lit" "sg-a" "sg-b" (by decide) rfl

/-! ### Tag reconciliation (correctExistingTags) -/

/-- Modelled from the spec: tagResourceTags builds the full required marker
set carried by the additive tag-update call — the cluster-scope ownership
marker, the name marker, and the generic ownership marker.  The helper is
declared outside the provided sources. -/
def tagResourceTags (clusterID machineName : String) : List Tag :=
  [ Tag.mk ( clusterFilterKeyPrefix ++ clusterID) clusterFilterValue,
    Tag.mk clusterFilterName machineName,
    Tag.mk clusterOwnedKey clusterOwnedValue ]

/-- The fields of ecs.TagResourcesRequest assigned by correctExistingTags. -/
structure TagResourcesRequest where
  Scheme : String
  RegionId : String
  Tag : List Tag
  ResourceId : List String
  ResourceType : String
deriving DecidableEq, Repr

/-- correctExistingTags validates the Name, cluster and owned tags on the
instance and issues one additive TagResources call when any is missing or
mismatched (translated from correctExistingTags; the machine name and cluster
ID, read from the machine object in Go, are parameters here).  `.ok none`
models "no tag call issued"; `.ok (some req)` models "exactly one additive
tag call with request req". -/
def correctExistingTags (machineName clusterID regionID : String) (inst : Instance) :
    Except String (Option TagResourcesRequest) :=
  if inst.InstanceId == "" then
    .error "unexpected nil found in instance"
  else
    let checks := inst.Tags.foldl
      (fun (acc : Bool × Bool × Bool) tag =>
        if tag.TagKey != "" && tag.TagValue != "" then
          (acc.1 || (tag.TagKey == clusterFilterName && tag.TagValue == machineName),
           acc.2.1 || (tag.TagKey == clusterFilterKeyPrefix ++ clusterID &&
             tag.TagValue == clusterFilterValue),
           acc.2.2 || (tag.TagKey == clusterOwnedKey && tag.TagValue == clusterOwnedValue))
        else acc)
      (false, false, false)
    if !checks.1 || !checks.2.1 || !checks.2.2 then
      .ok (some (TagResourcesRequest.mk "https" regionID
        (tagResourceTags clusterID machineName) [inst.InstanceId] ECSTagResourceTypeInstance))
    else
      .ok none

/-- The instance carries a valid (non-empty key and value) name tag matching
the machine name. -/
def hasNameTag (machineName : String) (inst : Instance) : Bool :=
  inst.Tags.any (fun tag => (tag.TagKey != "" && tag.TagValue != "") &&
    (tag.TagKey == clusterFilterName && tag.TagValue == machineName))

/-- The instance carries a valid cluster-ownership tag for the cluster ID. -/
def hasClusterTag (clusterID : String) (inst : Instance) : Bool :=
  inst.Tags.any (fun tag => (tag.TagKey != "" && tag.TagValue != "") &&
    (tag.TagKey == clusterFilterKeyPrefix ++ clusterID && tag.TagValue == clusterFilterValue))

/-- The instance carries the valid generic owned marker. -/
def hasOwnedTag (inst : Instance) : Bool :=
  inst.Tags.any (fun tag => (tag.TagKey != "" && tag.TagValue != "") &&
    (tag.TagKey == clusterOwnedKey && tag.TagValue == clusterOwnedValue))

lemma foldl_or_triple (guard f1 f2 f3 : ECSTag → Bool) :
    ∀ (l : List ECSTag) (b1 b2 b3 : Bool),
      l.foldl
          (fun (acc : Bool × Bool × Bool) tag =>
            if guard tag then (acc.1 || f1 tag, acc.2.1 || f2 tag, acc.2.2 || f3 tag) else acc)
          (b1, b2, b3)
        = (b1 || l.any (fun t => guard t && f1 t),
           b2 || l.any (fun t => guard t && f2 t),
           b3 || l.any (fun t => guard t && f3 t)) := by
  intro l
  induction l with
  | nil => intro b1 b2 b3; simp
  | cons t l ih =>
    intro b1 b2 b3
    cases hg : guard t with
    | false => simp [List.foldl_cons, hg, ih]
    | true => simp [List.foldl_cons, hg, ih, Bool.or_assoc]

/-- C9: with a non-empty instance ID, correctExistingTags issues zero
tag-update calls exactly when the instance already carries all three required
markers with correct values, and otherwise issues exactly one additive
TagResources call carrying the full required marker set. -/
theorem correctExistingTags_updates_iff (machineName clusterID regionID : String)
    (inst : Instance) (hid : inst.InstanceId ≠ "") :
    (correctExistingTags machineName clusterID regionID inst = .ok none ↔
        (hasNameTag machineName inst && hasClusterTag clusterID inst && hasOwnedTag inst)
          = true) ∧
      ((hasNameTag machineName inst && hasClusterTag clusterID inst && hasOwnedTag inst)
          = false →
        correctExistingTags machineName clusterID regionID inst
          = .ok (some (TagResourcesRequest.mk "https" regionID
              (tagResourceTags clusterID machineName) [inst.InstanceId]
              ECSTagResourceTypeInstance))) := by
  have heq : correctExistingTags machineName clusterID regionID inst =
      (if !(hasNameTag machineName inst) || !(hasClusterTag clusterID inst) ||
          !(hasOwnedTag inst) then
        .ok (some (TagResourcesRequest.mk "https" regionID
          (tagResourceTags clusterID machineName) [inst.InstanceId]
          ECSTagResourceTypeInstance))
      else
        .ok none) := by
    rw [correctExistingTags]
    rw [foldl_or_triple (fun tag => tag.TagKey != "" && tag.TagValue != "")
      (fun tag => tag.TagKey == clusterFilterName && tag.TagValue == machineName)
      (fun tag => tag.TagKey == clusterFilterKeyPrefix ++ clusterID &&
        tag.TagValue == clusterFilterValue)
      (fun tag => tag.TagKey == clusterOwnedKey && tag.TagValue == clusterOwnedValue)
      inst.Tags false false false]
    simp [hid, hasNameTag, hasClusterTag, hasOwnedTag]
  rcases habc : (hasNameTag machineName inst && hasClusterTag clusterID inst &&
      hasOwnedTag inst) with hfalse | htrue
  · constructor
    · rw [heq]
      have hcond : (!(hasNameTag machineName inst) || !(hasClusterTag clusterID inst) ||
          !(hasOwnedTag inst)) = true := by
        rcases h1 : hasNameTag machineName inst <;>
          rcases h2 : hasClusterTag clusterID inst <;>
          rcases h3 : hasOwnedTag inst <;> simp_all
      rw [hcond]
      simp
    · intro _
      rw [heq]
      have hcond : (!(hasNameTag machineName inst) || !(hasClusterTag clusterID inst) ||
          !(hasOwnedTag inst)) = true := by
        rcases h1 : hasNameTag machineName inst <;>
          rcases h2 : hasClusterTag clusterID inst <;>
          rcases h3 : hasOwnedTag inst <;> simp_all
      rw [hcond]
      simp
  · constructor
    · rw [heq]
      have hcond : (!(hasNameTag machineName inst) || !(hasClusterTag clusterID inst) ||
          !(hasOwnedTag inst)) = false := by
        rcases h1 : hasNameTag machineName inst <;>
          rcases h2 : hasClusterTag clusterID inst <;>
          rcases h3 : hasOwnedTag inst <;> simp_all
      rw [hcond]
      simp
    · intro hcontra
      exact absurd hcontra (by simp)

/-- An instance carrying all three required markers for machine "m1" in
cluster "cid". -/
def instAllMarkers : Instance :=
  Instance.mk "i-1" "Running" ""
    [ ECSTag.mk "kubernetes.io/cluster/cid" "owned",
      ECSTag.mk "Name" "m1",
      ECSTag.mk "cluster-api-provider-alibaba/owned" "true" ]

/-- An instance missing only the generic owned marker. -/
def instMissingOwned : Instance :=
  Instance.mk "i-2" "Running" ""
    [ ECSTag.mk "kubernetes.io/cluster/cid" "owned",
      ECSTag.mk "Name" "m1" ]

/-- Witness for C9 at concrete instances: all three markers correct issues no
tag call; a missing owned marker issues exactly one additive call carrying
the full required marker set. -/
theorem correctExistingTags_updates_iff_witness :
    correctExistingTags "m1" "cid" "r" instAllMarkers = .ok none ∧
      correctExistingTags "m1" "cid" "r" instMissingOwned
        = .ok (some (TagResourcesRequest.mk "https" "r" (tagResourceTags "cid" "m1")
            ["i-2"] ECSTagResourceTypeInstance)) := by
  constructor
  · exact (correctExistingTags_updates_iff "m1" "cid" "r" instAllMarkers
      (by decide)).1.mpr (by decide)
  · exact (correctExistingTags_updates_iff "m1" "cid" "r" instMissingOwned
      (by decide)).2 (by decide)

end AlibabaMachine
